import Mathlib

/-!
Verification of the synthetic EHR record sampler
(`src/data/synthetic.py`, function `generate_synthetic_ehr`).

The sampler is embedded shallowly:

* Python `str(i)` on a natural number is `natRepr`, built from `toDecimal`.
* Python `str.zfill` is `zfill`.
* The numpy random generator obtained from `np.random.default_rng(seed)` is
  modelled by a `Gen` structure: for one call it records the i-th raw
  `normal(65, 15)` sample and the i-th uniform [0,1) double consumed by each
  of the five `rng.choice` calls, in the code's fixed draw order.  The library
  function `default_rng` itself is external to the repository, so every
  theorem quantifies over an arbitrary deterministic `default_rng : Int → Gen`.
* `np.clip` is `clip`, `.astype(int)` (truncation toward zero) is
  `astype_int`, and a two-element `rng.choice` with probabilities `[p, 1-p]`
  reduces to a threshold test of the consumed uniform against the cumulative
  distribution, exactly as numpy's `searchsorted`-based implementation does.
* A pandas `DataFrame` built from a dict literal is an association list of
  named columns (`DataFrame`), preserving the dict's key order.
* numpy raises `ValueError` for a negative sample size (in `rng.normal`) and
  for a probability vector with a negative entry (in `rng.choice`, validated
  before sampling, for any size); the embedding returns `Except.error` at the
  corresponding program points, in the code's evaluation order.
-/

/-- Decimal digit character: `Char.ofNat (48 + d)`, i.e. '0'..'9' for d < 10. -/
def decChar (d : Nat) : Char := Char.ofNat (48 + d)

/-- Decimal digits of a natural number, most significant first.
Embeds Python `str(i)` for a non-negative integer `i` (at the digit level). -/
def toDecimal (n : Nat) : List Char :=
  if _h : n < 10 then [decChar n]
  else toDecimal (n / 10) ++ [decChar (n % 10)]
decreasing_by exact Nat.div_lt_self (by omega) (by omega)

/-- Embedding of Python `str(i)` for a natural number. -/
def natRepr (n : Nat) : String := ⟨toDecimal n⟩

/-- Embedding of Python `s.zfill(w)`: pad on the left with '0' up to width `w`
(no truncation; for a string already at least `w` long, the string itself). -/
def zfill (w : Nat) (s : String) : String :=
  ⟨List.replicate (w - s.length) '0' ++ s.data⟩

/-- The patient identifier of row `i`: Python `f"P{str(i).zfill(6)}"`. -/
def patientId (i : Nat) : String := "P" ++ zfill 6 (natRepr i)

/-- Horner evaluation of a digit-character list (left inverse used to show
`patientId` is injective). -/
def ofDigitsC (acc : Nat) : List Char → Nat
  | [] => acc
  | c :: cs => ofDigitsC (acc * 10 + (c.toNat - 48)) cs

/-- Recover the row index from a patient identifier. -/
def parseId (s : String) : Nat := ofDigitsC 0 (s.data.drop 1)

/-- The draw sequence of one numpy generator `np.random.default_rng(seed)` as
consumed by one call of `generate_synthetic_ehr`: raw `normal(65, 15)` samples
and the uniform [0,1) doubles consumed by the five `rng.choice` calls, in the
code's fixed order (ages, genders, races, readmission, sepsis, mortality). -/
structure Gen where
  normalRaw : Nat → Rat
  genderU : Nat → Rat
  raceU : Nat → Rat
  readmU : Nat → Rat
  sepsisU : Nat → Rat
  mortU : Nat → Rat

/-- numpy `np.clip(x, lo, hi) = min(hi, max(lo, x))`. -/
def clip (lo hi x : Rat) : Rat := min hi (max lo x)

/-- numpy `.astype(int)`: truncation toward zero. -/
def astype_int (q : Rat) : Int := if 0 ≤ q then ⌊q⌋ else ⌈q⌉

/-- `rng.choice(['M','F'], p=[0.48, 0.52])` on one consumed uniform:
numpy searchsorted of the uniform in the cdf `[0.48, 1.0]` (side 'right'). -/
def choiceGender (u : Rat) : String := if u < 0.48 then "M" else "F"

/-- `rng.choice(['White','Black','Hispanic','Asian','Other'],
p=[0.60, 0.15, 0.15, 0.05, 0.05])` on one consumed uniform: searchsorted of
the uniform in the cdf `[0.60, 0.75, 0.90, 0.95, 1.0]`. -/
def choiceRace (u : Rat) : String :=
  if u < 0.60 then "White"
  else if u < 0.75 then "Black"
  else if u < 0.90 then "Hispanic"
  else if u < 0.95 then "Asian"
  else "Other"

/-- `rng.choice([0, 1], p=[1-rate, rate])` on one consumed uniform. -/
def choiceFlag (u rate : Rat) : Nat := if u < 1 - rate then 0 else 1

/-- One column of the assembled table. -/
inductive Col where
  | strCol : List String → Col
  | intCol : List Int → Col
  | natCol : List Nat → Col
deriving DecidableEq

/-- Number of entries of a column. -/
def Col.length : Col → Nat
  | strCol l => l.length
  | intCol l => l.length
  | natCol l => l.length

/-- A pandas DataFrame built from a dict literal: named columns in key order. -/
abbrev DataFrame := List (String × Col)

/-- Shallow embedding of `generate_synthetic_ehr` (src/data/synthetic.py,
lines 18-87).  `default_rng` is the (external) numpy seeding function; all
other parameters are the Python function's parameters.  Failure points of the
underlying numpy calls — negative sample size in `rng.normal`, a negative
entry in a probability vector in `rng.choice` (checked before sampling, for
any size) — become `Except.error`, in the code's evaluation order. -/
def generate_synthetic_ehr (default_rng : Int → Gen) (n_patients : Int)
    (random_state : Int) (readmission_rate sepsis_rate mortality_rate : Rat) :
    Except String DataFrame :=
  let rng := default_rng random_state
  let patient_ids := (List.range n_patients.toNat).map patientId
  if n_patients < 0 then Except.error "negative dimensions are not allowed"
  else
    let n := n_patients.toNat
    let age := (List.range n).map (fun i => astype_int (clip 18 100 (rng.normalRaw i)))
    let gender := (List.range n).map (fun i => choiceGender (rng.genderU i))
    let race := (List.range n).map (fun i => choiceRace (rng.raceU i))
    if readmission_rate < 0 ∨ 1 < readmission_rate then
      Except.error "probabilities are not non-negative"
    else
      let readmission := (List.range n).map (fun i => choiceFlag (rng.readmU i) readmission_rate)
      if sepsis_rate < 0 ∨ 1 < sepsis_rate then
        Except.error "probabilities are not non-negative"
      else
        let sepsis := (List.range n).map (fun i => choiceFlag (rng.sepsisU i) sepsis_rate)
        if mortality_rate < 0 ∨ 1 < mortality_rate then
          Except.error "probabilities are not non-negative"
        else
          let mortality := (List.range n).map (fun i => choiceFlag (rng.mortU i) mortality_rate)
          Except.ok [("patient_id", Col.strCol patient_ids),
                     ("age", Col.intCol age),
                     ("gender", Col.strCol gender),
                     ("race", Col.strCol race),
                     ("readmission", Col.natCol readmission),
                     ("sepsis", Col.natCol sepsis),
                     ("mortality", Col.natCol mortality)]

/-- Column lookup on an invocation result (by column name, `None` on error
or on an absent column). -/
def getCol (r : Except String DataFrame) (name : String) : Option Col :=
  match r with
  | Except.ok df => List.lookup name df
  | Except.error _ => none

/-- A concrete draw sequence, used to instantiate theorems on closed inputs. -/
def constGen : Gen :=
  ⟨fun _ => 65, fun _ => 1/2, fun _ => 1/2, fun _ => 1/2, fun _ => 1/2, fun _ => 1/2⟩

/-- A concrete seeding function, used to instantiate theorems on closed inputs. -/
def constRng : Int → Gen := fun _ => constGen

/-! ### Helper lemmas -/

theorem ofDigitsC_nil (a : Nat) : ofDigitsC a [] = a := rfl

theorem ofDigitsC_cons (a : Nat) (c : Char) (cs : List Char) :
    ofDigitsC a (c :: cs) = ofDigitsC (a * 10 + (c.toNat - 48)) cs := rfl

theorem ofDigitsC_append (a : Nat) (xs ys : List Char) :
    ofDigitsC a (xs ++ ys) = ofDigitsC (ofDigitsC a xs) ys := by
  induction xs generalizing a with
  | nil => rfl
  | cons c cs ih => rw [List.cons_append, ofDigitsC_cons, ofDigitsC_cons, ih]

theorem ofDigitsC_zeros (k : Nat) : ofDigitsC 0 (List.replicate k '0') = 0 := by
  induction k with
  | zero => rfl
  | succ k ih => rw [List.replicate_succ, ofDigitsC_cons]; simpa using ih

theorem decChar_toNat (d : Nat) (hd : d < 10) : (decChar d).toNat = 48 + d := by
  interval_cases d <;> rfl

theorem ofDigitsC_toDecimal (n : Nat) :
    ∀ a, ofDigitsC a (toDecimal n) = a * 10 ^ (toDecimal n).length + n := by
  induction n using Nat.strong_induction_on with
  | _ n ih =>
    intro a
    rw [toDecimal]
    by_cases h : n < 10
    · simp only [h, dite_true, ofDigitsC_cons, ofDigitsC_nil, List.length_cons,
        List.length_nil, decChar_toNat n h, pow_one]
      omega
    · simp only [h, dite_false, ofDigitsC_append, List.length_append]
      rw [ih (n / 10) (Nat.div_lt_self (by omega) (by omega)) a]
      simp only [ofDigitsC_cons, ofDigitsC_nil,
        decChar_toNat (n % 10) (Nat.mod_lt n (by omega)),
        List.length_cons, List.length_nil, pow_succ]
      have := Nat.div_add_mod n 10
      ring_nf
      omega

theorem parseId_patientId (i : Nat) : parseId (patientId i) = i := by
  have hdata : (patientId i).data =
      'P' :: (List.replicate (6 - (toDecimal i).length) '0' ++ toDecimal i) := rfl
  rw [parseId, hdata]
  simp only [List.drop_succ_cons, List.drop_zero, ofDigitsC_append, ofDigitsC_zeros]
  simpa using ofDigitsC_toDecimal i 0

theorem patientId_injective : Function.Injective patientId := by
  intro i j h
  have := congrArg parseId h
  rwa [parseId_patientId, parseId_patientId] at this

/-- Normal form of `generate_synthetic_ehr` on a non-negative count and
in-range rates: the call succeeds and returns the seven assembled columns. -/
theorem generate_ok (dr : Int → Gen) (n : Nat) (seed : Int) (r1 r2 r3 : Rat)
    (h1 : 0 ≤ r1) (h1' : r1 ≤ 1) (h2 : 0 ≤ r2) (h2' : r2 ≤ 1)
    (h3 : 0 ≤ r3) (h3' : r3 ≤ 1) :
    generate_synthetic_ehr dr (n : Int) seed r1 r2 r3 = Except.ok
      [("patient_id", Col.strCol ((List.range n).map patientId)),
       ("age", Col.intCol ((List.range n).map
          (fun i => astype_int (clip 18 100 ((dr seed).normalRaw i))))),
       ("gender", Col.strCol ((List.range n).map
          (fun i => choiceGender ((dr seed).genderU i)))),
       ("race", Col.strCol ((List.range n).map
          (fun i => choiceRace ((dr seed).raceU i)))),
       ("readmission", Col.natCol ((List.range n).map
          (fun i => choiceFlag ((dr seed).readmU i) r1))),
       ("sepsis", Col.natCol ((List.range n).map
          (fun i => choiceFlag ((dr seed).sepsisU i) r2))),
       ("mortality", Col.natCol ((List.range n).map
          (fun i => choiceFlag ((dr seed).mortU i) r3)))] := by
  rw [generate_synthetic_ehr]
  rw [if_neg (by omega), if_neg (by push_neg; exact ⟨h1, h1'⟩),
    if_neg (by push_neg; exact ⟨h2, h2'⟩), if_neg (by push_neg; exact ⟨h3, h3'⟩)]
  simp [Int.toNat_ofNat]

theorem astype_int_clip_bounds (x : Rat) :
    18 ≤ astype_int (clip 18 100 x) ∧ astype_int (clip 18 100 x) ≤ 100 := by
  have h18 : (18 : Rat) ≤ clip 18 100 x := le_min (by norm_num) (le_max_left 18 x)
  have h100 : clip 18 100 x ≤ 100 := min_le_left 100 (max 18 x)
  have h0 : (0 : Rat) ≤ clip 18 100 x := le_trans (by norm_num) h18
  rw [astype_int, if_pos h0]
  constructor
  · exact Int.le_floor.mpr (by exact_mod_cast h18)
  · have : ((⌊clip 18 100 x⌋ : Int) : Rat) ≤ 100 :=
      le_trans (Int.floor_le (clip 18 100 x)) h100
    exact_mod_cast this

theorem choiceGender_mem (u : Rat) : choiceGender u = "M" ∨ choiceGender u = "F" := by
  rw [choiceGender]; split <;> simp

theorem choiceRace_mem (u : Rat) :
    choiceRace u ∈ (["White", "Black", "Hispanic", "Asian", "Other"] : List String) := by
  rw [choiceRace]; split_ifs <;> simp

theorem choiceFlag_mem (u rate : Rat) : choiceFlag u rate = 0 ∨ choiceFlag u rate = 1 := by
  rw [choiceFlag]; split <;> simp

/-! ### Claim theorems -/

/-- C1: for every `n ≥ 1` (any seed, rate parameters ranging over their
declared probability domain [0,1]), `generate_synthetic_ehr` returns a table
in which every column has exactly `n` entries. -/
theorem C1_row_count (dr : Int → Gen) (n : Nat) (seed : Int) (r1 r2 r3 : Rat)
    (_hn : 1 ≤ n) (h1 : 0 ≤ r1) (h1' : r1 ≤ 1) (h2 : 0 ≤ r2) (h2' : r2 ≤ 1)
    (h3 : 0 ≤ r3) (h3' : r3 ≤ 1) :
    ∃ df : DataFrame, generate_synthetic_ehr dr (n : Int) seed r1 r2 r3 = Except.ok df ∧
      ∀ c ∈ df, Col.length c.2 = n := by
  refine ⟨_, generate_ok dr n seed r1 r2 r3 h1 h1' h2 h2' h3 h3', ?_⟩
  intro c hc
  simp only [List.mem_cons, List.not_mem_nil, or_false] at hc
  rcases hc with h | h | h | h | h | h | h <;> subst h <;> simp [Col.length]

theorem C1_row_count_witness :
    (1 : Nat) ≤ 3 ∧
      ∃ df : DataFrame,
        generate_synthetic_ehr constRng ((3 : Nat) : Int) 42 0.05 0.02 0.03 = Except.ok df ∧
        ∀ c ∈ df, Col.length c.2 = 3 :=
  ⟨by norm_num, C1_row_count constRng 3 42 0.05 0.02 0.03 (by norm_num) (by norm_num)
    (by norm_num) (by norm_num) (by norm_num) (by norm_num) (by norm_num)⟩

/-- C2: two invocations with identical arguments produce identical output:
the call is a pure function of its arguments, and all randomness derives from
the one generator freshly seeded from the seed argument — so any two seeding
functions that agree on this seed give equal tables. -/
theorem C2_deterministic (f g : Int → Gen) (n : Int) (seed : Int) (r1 r2 r3 : Rat)
    (h : f seed = g seed) :
    generate_synthetic_ehr f n seed r1 r2 r3 = generate_synthetic_ehr g n seed r1 r2 r3 := by
  simp only [generate_synthetic_ehr, h]

theorem C2_deterministic_witness :
    constRng 42 = constRng 42 ∧
      generate_synthetic_ehr constRng 100 42 0.05 0.02 0.03 =
        generate_synthetic_ehr constRng 100 42 0.05 0.02 0.03 :=
  ⟨rfl, C2_deterministic constRng constRng 100 42 0.05 0.02 0.03 rfl⟩

/-- C3: for every row index `i < n`, the patient_id of row `i` is "P" followed
by the decimal digits of `i` zero-padded to width 6, and the patient_id column
has no duplicates (pairwise distinct, index-ordered). -/
theorem C3_patient_ids (dr : Int → Gen) (n : Nat) (seed : Int) (r1 r2 r3 : Rat)
    (h1 : 0 ≤ r1) (h1' : r1 ≤ 1) (h2 : 0 ≤ r2) (h2' : r2 ≤ 1)
    (h3 : 0 ≤ r3) (h3' : r3 ≤ 1) (i : Nat) (hi : i < n) :
    ∃ ids : List String,
      getCol (generate_synthetic_ehr dr (n : Int) seed r1 r2 r3) "patient_id" =
        some (Col.strCol ids) ∧
      ids[i]? = some ("P" ++ zfill 6 (natRepr i)) ∧
      ids.Nodup := by
  refine ⟨(List.range n).map patientId, ?_, ?_, ?_⟩
  · rw [generate_ok dr n seed r1 r2 r3 h1 h1' h2 h2' h3 h3']
    simp [getCol, List.lookup]
  · simp [List.getElem?_map, List.getElem?_range hi, patientId]
  · exact (List.nodup_range n).map patientId_injective

theorem C3_patient_ids_witness :
    ((0 : Rat) ≤ 0.05 ∧ (2 : Nat) < 5) ∧
      ∃ ids : List String,
        getCol (generate_synthetic_ehr constRng ((5 : Nat) : Int) 42 0.05 0.02 0.03)
          "patient_id" = some (Col.strCol ids) ∧
        ids[2]? = some ("P" ++ zfill 6 (natRepr 2)) ∧
        ids.Nodup :=
  ⟨⟨by norm_num, by norm_num⟩,
    C3_patient_ids constRng 5 42 0.05 0.02 0.03 (by norm_num) (by norm_num)
      (by norm_num) (by norm_num) (by norm_num) (by norm_num) 2 (by norm_num)⟩

/-- C4: every entry of the age column is an integer in the inclusive range
[18, 100] — the raw normal(65, 15) draw is clipped to [18, 100] and then
truncated to an integer, whatever the raw draw was. -/
theorem C4_age_range (dr : Int → Gen) (n : Nat) (seed : Int) (r1 r2 r3 : Rat)
    (h1 : 0 ≤ r1) (h1' : r1 ≤ 1) (h2 : 0 ≤ r2) (h2' : r2 ≤ 1)
    (h3 : 0 ≤ r3) (h3' : r3 ≤ 1) :
    ∃ ages : List Int,
      getCol (generate_synthetic_ehr dr (n : Int) seed r1 r2 r3) "age" =
        some (Col.intCol ages) ∧
      ∀ a ∈ ages, 18 ≤ a ∧ a ≤ 100 := by
  refine ⟨(List.range n).map (fun i => astype_int (clip 18 100 ((dr seed).normalRaw i))),
    ?_, ?_⟩
  · rw [generate_ok dr n seed r1 r2 r3 h1 h1' h2 h2' h3 h3']
    simp [getCol, List.lookup]
  · intro a ha
    rcases List.mem_map.mp ha with ⟨i, _, rfl⟩
    exact astype_int_clip_bounds ((dr seed).normalRaw i)

theorem C4_age_range_witness :
    (0 : Rat) ≤ 0.05 ∧
      ∃ ages : List Int,
        getCol (generate_synthetic_ehr constRng ((4 : Nat) : Int) 42 0.05 0.02 0.03) "age" =
          some (Col.intCol ages) ∧
        ∀ a ∈ ages, 18 ≤ a ∧ a ≤ 100 :=
  ⟨by norm_num, C4_age_range constRng 4 42 0.05 0.02 0.03 (by norm_num) (by norm_num)
    (by norm_num) (by norm_num) (by norm_num) (by norm_num)⟩

/-- C5: the returned table has exactly the seven columns patient_id, age,
gender, race, readmission, sepsis, mortality, in that order. -/
theorem C5_columns (dr : Int → Gen) (n : Nat) (seed : Int) (r1 r2 r3 : Rat)
    (h1 : 0 ≤ r1) (h1' : r1 ≤ 1) (h2 : 0 ≤ r2) (h2' : r2 ≤ 1)
    (h3 : 0 ≤ r3) (h3' : r3 ≤ 1) :
    ∃ df : DataFrame, generate_synthetic_ehr dr (n : Int) seed r1 r2 r3 = Except.ok df ∧
      df.map Prod.fst =
        ["patient_id", "age", "gender", "race", "readmission", "sepsis", "mortality"] := by
  exact ⟨_, generate_ok dr n seed r1 r2 r3 h1 h1' h2 h2' h3 h3', rfl⟩

theorem C5_columns_witness :
    (0 : Rat) ≤ 0.05 ∧
      ∃ df : DataFrame,
        generate_synthetic_ehr constRng ((100 : Nat) : Int) 42 0.05 0.02 0.03 =
          Except.ok df ∧
        df.map Prod.fst =
          ["patient_id", "age", "gender", "race", "readmission", "sepsis", "mortality"] :=
  ⟨by norm_num, C5_columns constRng 100 42 0.05 0.02 0.03 (by norm_num) (by norm_num)
    (by norm_num) (by norm_num) (by norm_num) (by norm_num)⟩

/-- C6 counterexample: the claim asserts that every invalid input, in
particular `n_patients = 0`, makes `generate_synthetic_ehr` fail with an
error condition; on the code, `n_patients = 0` (default rates, seed 42) does
not fail — it returns a degenerate zero-row table. -/
theorem C6_counterexample :
    generate_synthetic_ehr constRng 0 42 0.05 0.02 0.03 =
      Except.ok [("patient_id", Col.strCol []), ("age", Col.intCol []),
        ("gender", Col.strCol []), ("race", Col.strCol []),
        ("readmission", Col.natCol []), ("sepsis", Col.natCol []),
        ("mortality", Col.natCol [])] := by
  rw [generate_synthetic_ehr]
  norm_num

/-- C6 amended: a negative `n_patients` or a rate parameter outside [0, 1]
makes `generate_synthetic_ehr` fail immediately with a ValueError-style error
condition (raised by the underlying library calls); `n_patients = 0` does
not fail. -/
theorem C6_invalid_inputs (dr : Int → Gen) (n : Int) (seed : Int) (r1 r2 r3 : Rat)
    (h : n < 0 ∨ r1 < 0 ∨ 1 < r1 ∨ r2 < 0 ∨ 1 < r2 ∨ r3 < 0 ∨ 1 < r3) :
    ∃ msg, generate_synthetic_ehr dr n seed r1 r2 r3 = Except.error msg := by
  rw [generate_synthetic_ehr]
  by_cases hn : n < 0
  · exact ⟨_, by rw [if_pos hn]⟩
  · rw [if_neg hn]
    by_cases ha : r1 < 0 ∨ 1 < r1
    · exact ⟨_, by rw [if_pos ha]⟩
    · rw [if_neg ha]
      by_cases hb : r2 < 0 ∨ 1 < r2
      · exact ⟨_, by rw [if_pos hb]⟩
      · rw [if_neg hb]
        have hc : r3 < 0 ∨ 1 < r3 := by tauto
        exact ⟨_, by rw [if_pos hc]⟩

theorem C6_invalid_inputs_witness :
    ((-1 : Int) < 0 ∨ (0.05 : Rat) < 0 ∨ 1 < (0.05 : Rat) ∨ (0.02 : Rat) < 0 ∨
        1 < (0.02 : Rat) ∨ (0.03 : Rat) < 0 ∨ 1 < (0.03 : Rat)) ∧
      ∃ msg, generate_synthetic_ehr constRng (-1) 42 0.05 0.02 0.03 = Except.error msg :=
  ⟨Or.inl (by norm_num),
    C6_invalid_inputs constRng (-1) 42 0.05 0.02 0.03 (Or.inl (by norm_num))⟩

/-- C7: each rate parameter influences only its own outcome column — with
`n` and seed fixed, changing one rate alone leaves every other column
(demographics and the other two outcome flags) identical, because each flag
is thresholded against its own consumed uniform draws. -/
theorem C7_rate_isolation (dr : Int → Gen) (n : Nat) (seed : Int)
    (r1 r1' r2 r2' r3 r3' : Rat)
    (h1 : 0 ≤ r1) (h1' : r1 ≤ 1) (h1a : 0 ≤ r1') (h1b : r1' ≤ 1)
    (h2 : 0 ≤ r2) (h2' : r2 ≤ 1) (h2a : 0 ≤ r2') (h2b : r2' ≤ 1)
    (h3 : 0 ≤ r3) (h3' : r3 ≤ 1) (h3a : 0 ≤ r3') (h3b : r3' ≤ 1) :
    (∀ name, name ≠ "readmission" →
      getCol (generate_synthetic_ehr dr (n : Int) seed r1 r2 r3) name =
        getCol (generate_synthetic_ehr dr (n : Int) seed r1' r2 r3) name) ∧
    (∀ name, name ≠ "sepsis" →
      getCol (generate_synthetic_ehr dr (n : Int) seed r1 r2 r3) name =
        getCol (generate_synthetic_ehr dr (n : Int) seed r1 r2' r3) name) ∧
    (∀ name, name ≠ "mortality" →
      getCol (generate_synthetic_ehr dr (n : Int) seed r1 r2 r3) name =
        getCol (generate_synthetic_ehr dr (n : Int) seed r1 r2 r3') name) := by
  refine ⟨?_, ?_, ?_⟩
  · intro name hname
    rw [generate_ok dr n seed r1 r2 r3 h1 h1' h2 h2' h3 h3',
      generate_ok dr n seed r1' r2 r3 h1a h1b h2 h2' h3 h3']
    have h0 : (name == "readmission") = false := beq_eq_false_iff_ne.mpr hname
    simp [getCol, List.lookup, h0]
  · intro name hname
    rw [generate_ok dr n seed r1 r2 r3 h1 h1' h2 h2' h3 h3',
      generate_ok dr n seed r1 r2' r3 h1 h1' h2a h2b h3 h3']
    have h0 : (name == "sepsis") = false := beq_eq_false_iff_ne.mpr hname
    simp [getCol, List.lookup, h0]
  · intro name hname
    rw [generate_ok dr n seed r1 r2 r3 h1 h1' h2 h2' h3 h3',
      generate_ok dr n seed r1 r2 r3' h1 h1' h2 h2' h3a h3b]
    have h0 : (name == "mortality") = false := beq_eq_false_iff_ne.mpr hname
    simp [getCol, List.lookup, h0]

theorem C7_rate_isolation_witness :
    ((0 : Rat) ≤ 0.05 ∧ "age" ≠ "mortality") ∧
      getCol (generate_synthetic_ehr constRng ((3 : Nat) : Int) 42 0.05 0.02 0.03) "age" =
        getCol (generate_synthetic_ehr constRng ((3 : Nat) : Int) 42 0.05 0.02 0.9) "age" :=
  ⟨⟨by norm_num, by decide⟩,
    (C7_rate_isolation constRng 3 42 0.05 0.05 0.02 0.02 0.03 0.9
      (by norm_num) (by norm_num) (by norm_num) (by norm_num) (by norm_num) (by norm_num)
      (by norm_num) (by norm_num) (by norm_num) (by norm_num) (by norm_num)
      (by norm_num)).2.2 "age" (by decide)⟩

/-- C8: in every row, gender is one of {M, F}, race is one of
{White, Black, Hispanic, Asian, Other}, and each outcome flag
(readmission, sepsis, mortality) is 0 or 1. -/
theorem C8_domains (dr : Int → Gen) (n : Nat) (seed : Int) (r1 r2 r3 : Rat)
    (h1 : 0 ≤ r1) (h1' : r1 ≤ 1) (h2 : 0 ≤ r2) (h2' : r2 ≤ 1)
    (h3 : 0 ≤ r3) (h3' : r3 ≤ 1) :
    ∃ gs rs : List String, ∃ fs1 fs2 fs3 : List Nat,
      getCol (generate_synthetic_ehr dr (n : Int) seed r1 r2 r3) "gender" =
        some (Col.strCol gs) ∧ (∀ x ∈ gs, x = "M" ∨ x = "F") ∧
      getCol (generate_synthetic_ehr dr (n : Int) seed r1 r2 r3) "race" =
        some (Col.strCol rs) ∧
        (∀ x ∈ rs, x ∈ (["White", "Black", "Hispanic", "Asian", "Other"] : List String)) ∧
      getCol (generate_synthetic_ehr dr (n : Int) seed r1 r2 r3) "readmission" =
        some (Col.natCol fs1) ∧ (∀ x ∈ fs1, x = 0 ∨ x = 1) ∧
      getCol (generate_synthetic_ehr dr (n : Int) seed r1 r2 r3) "sepsis" =
        some (Col.natCol fs2) ∧ (∀ x ∈ fs2, x = 0 ∨ x = 1) ∧
      getCol (generate_synthetic_ehr dr (n : Int) seed r1 r2 r3) "mortality" =
        some (Col.natCol fs3) ∧ (∀ x ∈ fs3, x = 0 ∨ x = 1) := by
  have hok := generate_ok dr n seed r1 r2 r3 h1 h1' h2 h2' h3 h3'
  refine ⟨(List.range n).map (fun i => choiceGender ((dr seed).genderU i)),
    (List.range n).map (fun i => choiceRace ((dr seed).raceU i)),
    (List.range n).map (fun i => choiceFlag ((dr seed).readmU i) r1),
    (List.range n).map (fun i => choiceFlag ((dr seed).sepsisU i) r2),
    (List.range n).map (fun i => choiceFlag ((dr seed).mortU i) r3),
    ?_, ?_, ?_, ?_, ?_, ?_, ?_, ?_, ?_, ?_⟩
  · rw [hok]; simp [getCol, List.lookup]
  · intro x hx
    rcases List.mem_map.mp hx with ⟨i, _, rfl⟩
    exact choiceGender_mem ((dr seed).genderU i)
  · rw [hok]; simp [getCol, List.lookup]
  · intro x hx
    rcases List.mem_map.mp hx with ⟨i, _, rfl⟩
    exact choiceRace_mem ((dr seed).raceU i)
  · rw [hok]; simp [getCol, List.lookup]
  · intro x hx
    rcases List.mem_map.mp hx with ⟨i, _, rfl⟩
    exact choiceFlag_mem ((dr seed).readmU i) r1
  · rw [hok]; simp [getCol, List.lookup]
  · intro x hx
    rcases List.mem_map.mp hx with ⟨i, _, rfl⟩
    exact choiceFlag_mem ((dr seed).sepsisU i) r2
  · rw [hok]; simp [getCol, List.lookup]
  · intro x hx
    rcases List.mem_map.mp hx with ⟨i, _, rfl⟩
    exact choiceFlag_mem ((dr seed).mortU i) r3

theorem C8_domains_witness :
    (0 : Rat) ≤ 0.05 ∧
      ∃ gs rs : List String, ∃ fs1 fs2 fs3 : List Nat,
        getCol (generate_synthetic_ehr constRng ((2 : Nat) : Int) 42 0.05 0.02 0.03)
          "gender" = some (Col.strCol gs) ∧ (∀ x ∈ gs, x = "M" ∨ x = "F") ∧
        getCol (generate_synthetic_ehr constRng ((2 : Nat) : Int) 42 0.05 0.02 0.03)
          "race" = some (Col.strCol rs) ∧
          (∀ x ∈ rs, x ∈ (["White", "Black", "Hispanic", "Asian", "Other"] : List String)) ∧
        getCol (generate_synthetic_ehr constRng ((2 : Nat) : Int) 42 0.05 0.02 0.03)
          "readmission" = some (Col.natCol fs1) ∧ (∀ x ∈ fs1, x = 0 ∨ x = 1) ∧
        getCol (generate_synthetic_ehr constRng ((2 : Nat) : Int) 42 0.05 0.02 0.03)
          "sepsis" = some (Col.natCol fs2) ∧ (∀ x ∈ fs2, x = 0 ∨ x = 1) ∧
        getCol (generate_synthetic_ehr constRng ((2 : Nat) : Int) 42 0.05 0.02 0.03)
          "mortality" = some (Col.natCol fs3) ∧ (∀ x ∈ fs3, x = 0 ∨ x = 1) :=
  ⟨by norm_num, C8_domains constRng 2 42 0.05 0.02 0.03 (by norm_num) (by norm_num)
    (by norm_num) (by norm_num) (by norm_num) (by norm_num)⟩

/-- C10 counterexample: the claim asserts that `n_patients = 0` raises no
error for any rates; on the code, `n_patients = 0` with `mortality_rate = 2`
fails, because the underlying choice call validates its probability vector
(here containing the negative entry 1 - 2) regardless of the sample size. -/
theorem C10_counterexample :
    generate_synthetic_ehr constRng 0 42 0.05 0.02 2 =
      Except.error "probabilities are not non-negative" := by
  rw [generate_synthetic_ehr]
  norm_num

/-- C10 amended: for `n_patients = 0` with any seed and rate parameters
inside [0, 1], the call raises no error and returns a zero-row table that
still has all seven columns. -/
theorem C10_empty_table (dr : Int → Gen) (seed : Int) (r1 r2 r3 : Rat)
    (h1 : 0 ≤ r1) (h1' : r1 ≤ 1) (h2 : 0 ≤ r2) (h2' : r2 ≤ 1)
    (h3 : 0 ≤ r3) (h3' : r3 ≤ 1) :
    generate_synthetic_ehr dr 0 seed r1 r2 r3 = Except.ok
      [("patient_id", Col.strCol []), ("age", Col.intCol []),
       ("gender", Col.strCol []), ("race", Col.strCol []),
       ("readmission", Col.natCol []), ("sepsis", Col.natCol []),
       ("mortality", Col.natCol [])] := by
  have h := generate_ok dr 0 seed r1 r2 r3 h1 h1' h2 h2' h3 h3'
  simpa using h

theorem C10_empty_table_witness :
    (0 : Rat) ≤ 0.05 ∧
      generate_synthetic_ehr constRng 0 7 0.05 0.02 0.03 = Except.ok
        [("patient_id", Col.strCol []), ("age", Col.intCol []),
         ("gender", Col.strCol []), ("race", Col.strCol []),
         ("readmission", Col.natCol []), ("sepsis", Col.natCol []),
         ("mortality", Col.natCol [])] :=
  ⟨by norm_num, C10_empty_table constRng 7 0.05 0.02 0.03 (by norm_num) (by norm_num)
    (by norm_num) (by norm_num) (by norm_num) (by norm_num)⟩
